import Mathlib

/-!
Verification development for the rustsbi-hifive-unmatched firmware
(`src/rustsbi-hifive-unmatched/src/{main.rs, execute.rs}`), shallowly
embedded in Lean 4.  Machine words (`usize` on this rv64 target) are
modelled as `Nat`, with an explicit `% 2^64` where the source performs
wrapping arithmetic.
-/

namespace RustSBI

/-! ## Model of `execute.rs` -/

/-- The saved supervisor register state inspected and mutated by the
dispatch bridge.  `execute.rs` accesses the fields `a0`..`a7` and `mepc`
of `SupervisorContext`.  The struct itself lives in `runtime.rs`, which
is not part of the sources; its field set here is the one given by the
spec's data model (eight argument registers `a0..a7` plus `mepc`). -/
structure SupervisorContext where
  a0 : Nat
  a1 : Nat
  a2 : Nat
  a3 : Nat
  a4 : Nat
  a5 : Nat
  a6 : Nat
  a7 : Nat
  mepc : Nat
deriving Repr, DecidableEq

/-- Result pair of the external SBI dispatcher (`rustsbi::ecall`):
`SbiRet { error, value }`. -/
structure SbiRet where
  error : Nat
  value : Nat
deriving Repr, DecidableEq

/-- The trap classes reported by the runtime
(enum `MachineTrap` as matched in `execute.rs`). -/
inductive MachineTrap where
  | SbiCall : MachineTrap
  | IllegalInstruction : MachineTrap
  | MachineTimer : MachineTrap
  | MachineSoft : MachineTrap
deriving Repr, DecidableEq

/-- Result of driving the runtime one step
(`GeneratorState` as matched in `execute.rs`). -/
inductive GenState where
  | Yielded : MachineTrap → GenState
  | Complete : GenState
deriving Repr, DecidableEq

/-- Machine-mode state visible to one iteration of the trap loop: the
supervisor context plus the two CSR bits the `MachineTimer` arm touches. -/
structure MachineState where
  ctx : SupervisorContext
  mipStimer : Bool
  mieMtimer : Bool
deriving Repr, DecidableEq

/-- Outcome of one iteration of the trap loop in `execute_supervisor`:
the loop either resumes the supervisor with an updated machine state,
aborts the hart (`todo!()` panics, and a panicked hart halts), or leaves
the loop (`GeneratorState::Complete` → `break`). -/
inductive Outcome where
  | resumed : MachineState → Outcome
  | aborted : Outcome
  | finished : Outcome
deriving Repr, DecidableEq

/-- The `SbiCall` writeback in `execute_supervisor` (execute.rs:13-18):
read `param = [a0,a1,a2,a3,a4,a5]`, call
`rustsbi::ecall(a7, a6, param)`, write `ans.error` to `a0`, `ans.value`
to `a1`, and advance `mepc` by `mepc.wrapping_add(4)`.  The external
dispatcher is a parameter `ecall`. -/
def handleSbiCall (ecall : Nat → Nat → List Nat → SbiRet)
    (ctx : SupervisorContext) : SupervisorContext :=
  let param := [ctx.a0, ctx.a1, ctx.a2, ctx.a3, ctx.a4, ctx.a5]
  let ans := ecall ctx.a7 ctx.a6 param
  { ctx with a0 := ans.error, a1 := ans.value, mepc := (ctx.mepc + 4) % 2 ^ 64 }

/-- One iteration of the `loop`/`match` in `execute_supervisor`
(execute.rs:10-29), as a function of the yielded event:
* `SbiCall` → SBI dispatch and writeback, then resume;
* `IllegalInstruction` → `todo!("emulate rdtime")`, aborting the hart;
* `MachineTimer` → `mip::set_stimer(); mie::clear_mtimer();`, then resume;
* `MachineSoft` → `todo!()`, aborting the hart;
* `Complete` → `break`. -/
def execute_supervisor_step (ecall : Nat → Nat → List Nat → SbiRet)
    (g : GenState) (s : MachineState) : Outcome :=
  match g with
  | .Yielded .SbiCall => .resumed { s with ctx := handleSbiCall ecall s.ctx }
  | .Yielded .IllegalInstruction => .aborted
  | .Yielded .MachineTimer => .resumed { s with mipStimer := true, mieMtimer := false }
  | .Yielded .MachineSoft => .aborted
  | .Complete => .finished

/-! ## Model of `main.rs`: boot descriptor and boot sequence trace -/

/-- The boot descriptor handed over by the loader (main.rs:33-42). -/
structure FwDynamicInfo where
  magic : Nat
  version : Nat
  next_addr : Nat
  next_mode : Nat
  options : Nat
  boot_hart : Nat
deriving Repr, DecidableEq

/-- main.rs:43. -/
def FW_DYNAMIC_INFO_MAGIC_VALUE : Nat := 0x4942534f

/-- Observable actions of `rust_main` (main.rs:45-104), in program
order.  `sendSoft phase target` is `clint.send_soft(target)` at the
early (`phase = 1`, main.rs:54-58) or late (`phase = 2`, main.rs:90-94)
notification point; `pauseWait phase` is the matching `pause(clint)`
call of a follower; console output events carry the data they print. -/
inductive Event where
  | initBss : Event
  | initConsole : Event
  | sendSoft : Nat → Nat → Event
  | pauseWait : Nat → Event
  | earlyTrapInit : Nat → Event
  | initHeap : Event
  | initStdio : Event
  | initClint : Event
  | printVersion : Event
  | parseDeviceTree : Nat → Event
  | delegate : Event
  | printCsrs : Event
  | printEnter : Nat → FwDynamicInfo → Event
  | runtimeInit : Event
  | enterSupervisor : Nat → Nat → Nat → Event
deriving Repr, DecidableEq

/-- The trace of observable actions one hart performs in `rust_main`
(main.rs:45-104).  `dtAddr` stands for `DEVICE_TREE.as_ptr() as usize`,
the address of the embedded fallback device-tree blob; `opq` is the
opaque handoff value received in `a1`.  The replacement of a zero `opq`
by `dtAddr` (main.rs:62-67) happens before any use of the opaque value,
so hoisting it to the top of the definition is behaviour-preserving.
`enterSupervisor pc hart o` stands for
`execute::execute_supervisor(fw_dynamic_info.next_addr, hart_id, opaque)`
(main.rs:103). -/
def rustMainTrace (dtAddr hartId opq : Nat) (info : FwDynamicInfo) : List Event :=
  let bootHart := info.boot_hart
  let opq2 := if opq = 0 then dtAddr else opq
  ((if hartId = bootHart then
      [Event.initBss, Event.initConsole]
        ++ (([1, 2, 3, 4].filter (fun t => t ≠ bootHart)).map (Event.sendSoft 1))
    else
      [Event.pauseWait 1])
    ++ [Event.earlyTrapInit hartId]
    ++ (if hartId = bootHart then
          [Event.initHeap, Event.initStdio, Event.initClint, Event.printVersion,
            Event.parseDeviceTree opq2, Event.delegate, Event.printCsrs,
            Event.printEnter opq2 info]
            ++ (([1, 2, 3, 4].filter (fun t => t ≠ bootHart)).map (Event.sendSoft 2))
        else
          (if hartId ≠ 0 then [Event.delegate] else []) ++ [Event.pauseWait 2])
    ++ [Event.runtimeInit])
    ++ [Event.enterSupervisor info.next_addr hartId opq2]

/-! ## Model of `main.rs`: delegation configurator -/

/-- The three CSRs written by `delegate_interrupt_exception`, each as a
bit mask (`Nat`). -/
structure Csrs where
  mideleg : Nat
  medeleg : Nat
  mie : Nat
deriving Repr, DecidableEq

/-- Set bit `n` of `x`, as the riscv crate's `_set(1 << n)` CSR helper does. -/
def setBit (x n : Nat) : Nat := x ||| 2 ^ n

/-- `delegate_interrupt_exception` (main.rs:130-152).  Bit positions are
the RISC-V interrupt numbers / exception codes used by the riscv crate:
`mideleg`: usoft=0, ssoft=1, utimer=4, stimer=5, uext=8, sext=9;
`medeleg`: instruction_misaligned=0, instruction_fault=1, breakpoint=3,
load_fault=5, store_fault=7, user_env_call=8, instruction_page_fault=12,
load_page_fault=13, store_page_fault=15;
`mie`: msoft=3, mext=11.  Writes to distinct CSRs commute, so the
source's interleaved order is grouped per CSR here. -/
def delegate_interrupt_exception (s : Csrs) : Csrs :=
  { mideleg :=
      setBit (setBit (setBit (setBit (setBit (setBit s.mideleg 9) 5) 1) 8) 4) 0,
    medeleg :=
      setBit (setBit (setBit (setBit (setBit (setBit (setBit (setBit (setBit
        s.medeleg 0) 3) 8) 12) 13) 15) 1) 5) 7,
    mie := setBit (setBit s.mie 11) 3 }

/-! ## Model of `main.rs`: synchronization barrier (`pause`) -/

/-- The interrupt state of one hart as read and written by `pause`:
its machine-software-interrupt-enable bit (`mie.msoft`), its
machine-software-interrupt-pending bit (`mip.msoft`), and its CLINT
software-interrupt-pending slot (`msip`). -/
structure HartIntState where
  mieMsoft : Bool
  mipMsoft : Bool
  clintMsip : Bool
deriving Repr, DecidableEq

/-- One `wfi` of the wait loop in `pause` (main.rs:163-168).  `arrived`
says whether another hart's `send_soft` has been delivered by this
point; delivery raises both the CLINT slot and the mirrored `mip.msoft`
bit. -/
def wfiStep (arrived : Bool) (s : HartIntState) : HartIntState :=
  if arrived then { s with clintMsip := true, mipMsoft := true } else s

/-- The `loop { wfi(); if mip::read().msoft() { break } }` of `pause`
(main.rs:163-168).  `env k` says whether a notification has arrived by
the `k`-th iteration; `fuel` bounds the number of iterations modelled,
with `none` meaning the loop is still spinning. -/
def waitLoop (env : Nat → Bool) : Nat → Nat → HartIntState → Option HartIntState
  | 0, _, _ => none
  | fuel + 1, k, s =>
    let s' := wfiStep (env k) s
    if s'.mipMsoft then some s' else waitLoop env fuel (k + 1) s'

/-- `pause` (main.rs:154-174): clear the CLINT slot, clear `mip.msoft`,
remember `mie.msoft`, set it, wait for a software interrupt, restore
`mie.msoft` if it was previously clear, and clear the CLINT slot again. -/
def pause (env : Nat → Bool) (fuel : Nat) (s : HartIntState) : Option HartIntState :=
  let s₁ := { s with clintMsip := false }
  let s₂ := { s₁ with mipMsoft := false }
  let prev_msoft := s₂.mieMsoft
  let s₃ := { s₂ with mieMsoft := true }
  match waitLoop env fuel 0 s₃ with
  | none => none
  | some s₄ =>
    let s₅ := if !prev_msoft then { s₄ with mieMsoft := false } else s₄
    some { s₅ with clintMsip := false }

/-! ## Model of `main.rs`: per-hart stack assignment (`entry`) -/

/-- main.rs:194. -/
def PER_HART_STACK_SIZE : Nat := 4 * 4096

/-- main.rs:195. -/
def SBI_STACK_SIZE : Nat := 5 * PER_HART_STACK_SIZE

/-- The stack-pointer loop in `entry` (main.rs:237-245): starting from
`sp`, add `t0` to it `t2` times (`t2` starts at `mhartid + 1`). -/
def spLoop (sp t0 : Nat) : Nat → Nat
  | 0 => sp
  | t2 + 1 => spLoop (sp + t0) t0 t2

/-- The stack pointer `entry` leaves in `sp` for hart `hartId`:
`spLoop` run from the stack base with step `PER_HART_STACK_SIZE` and
counter `mhartid + 1`. -/
def entrySp (base hartId : Nat) : Nat :=
  spLoop base PER_HART_STACK_SIZE (hartId + 1)

/-- The stack slice of hart `h`: the bytes of `SBI_STACK` it may use,
growing down from `entrySp base h` to the slice floor. -/
def stackSlice (base h : Nat) : Finset Nat :=
  Finset.Ico (base + h * PER_HART_STACK_SIZE) (base + (h + 1) * PER_HART_STACK_SIZE)

/-! ## Concrete sample inputs used by witnesses -/

/-- A concrete SBI dispatcher used to instantiate theorems. -/
def ecallSample : Nat → Nat → List Nat → SbiRet := fun e f _ => ⟨e + f, 7⟩

/-- A concrete pre-call supervisor context. -/
def ctxSample : SupervisorContext := ⟨10, 11, 12, 13, 14, 15, 16, 17, 0x80200000⟩

/-- A concrete pre-call machine state. -/
def msSample : MachineState := ⟨ctxSample, false, false⟩

/-- The machine state after the dispatch-and-writeback cycle on
`msSample` with `ecallSample`. -/
def msSample' : MachineState := ⟨⟨33, 7, 12, 13, 14, 15, 16, 17, 0x80200004⟩, false, false⟩

/-! ## Claim theorems -/

/-- C1: for every supervisor context suspended with an `SbiCall` trap,
one dispatch-and-writeback cycle resumes with `a0` equal to the error
code returned by the dispatcher invoked with `(a7, a6, [a0..a5])`, `a1`
equal to the dispatcher's returned value, and `mepc` equal to its
pre-call value plus 4. -/
theorem sbi_call_writeback (ecall : Nat → Nat → List Nat → SbiRet) (s : MachineState)
    (h : s.ctx.mepc + 4 < 2 ^ 64) :
    ∃ s', execute_supervisor_step ecall (.Yielded .SbiCall) s = .resumed s' ∧
      s'.ctx.a0 = (ecall s.ctx.a7 s.ctx.a6
        [s.ctx.a0, s.ctx.a1, s.ctx.a2, s.ctx.a3, s.ctx.a4, s.ctx.a5]).error ∧
      s'.ctx.a1 = (ecall s.ctx.a7 s.ctx.a6
        [s.ctx.a0, s.ctx.a1, s.ctx.a2, s.ctx.a3, s.ctx.a4, s.ctx.a5]).value ∧
      s'.ctx.mepc = s.ctx.mepc + 4 := by
  refine ⟨_, rfl, ?_, ?_, ?_⟩ <;>
    simp [execute_supervisor_step, handleSbiCall, Nat.mod_eq_of_lt h]
  simpa using h

/-- Witness for C1 at a concrete dispatcher and machine state. -/
theorem sbi_call_writeback_witness :
    msSample.ctx.mepc + 4 < 2 ^ 64 ∧
    (∃ s', execute_supervisor_step ecallSample (.Yielded .SbiCall) msSample = .resumed s' ∧
      s'.ctx.a0 = (ecallSample msSample.ctx.a7 msSample.ctx.a6
        [msSample.ctx.a0, msSample.ctx.a1, msSample.ctx.a2, msSample.ctx.a3,
          msSample.ctx.a4, msSample.ctx.a5]).error ∧
      s'.ctx.a1 = (ecallSample msSample.ctx.a7 msSample.ctx.a6
        [msSample.ctx.a0, msSample.ctx.a1, msSample.ctx.a2, msSample.ctx.a3,
          msSample.ctx.a4, msSample.ctx.a5]).value ∧
      s'.ctx.mepc = msSample.ctx.mepc + 4) :=
  ⟨by decide, sbi_call_writeback ecallSample msSample (by decide)⟩

/-- C2: the dispatch-and-writeback cycle leaves `a2`..`a7` bit-identical
to their pre-call values and mutates nothing outside `a0`, `a1` and the
saved program counter (in particular the machine CSR bits of the state
are untouched). -/
theorem sbi_call_frame (ecall : Nat → Nat → List Nat → SbiRet) (s s' : MachineState)
    (h : execute_supervisor_step ecall (.Yielded .SbiCall) s = .resumed s') :
    s'.ctx.a2 = s.ctx.a2 ∧ s'.ctx.a3 = s.ctx.a3 ∧ s'.ctx.a4 = s.ctx.a4 ∧
      s'.ctx.a5 = s.ctx.a5 ∧ s'.ctx.a6 = s.ctx.a6 ∧ s'.ctx.a7 = s.ctx.a7 ∧
      s'.mipStimer = s.mipStimer ∧ s'.mieMtimer = s.mieMtimer := by
  simp only [execute_supervisor_step] at h
  injection h with h'
  subst h'
  simp [handleSbiCall]

/-- Witness for C2 at a concrete dispatcher and machine state. -/
theorem sbi_call_frame_witness :
    execute_supervisor_step ecallSample (.Yielded .SbiCall) msSample = .resumed msSample' ∧
    (msSample'.ctx.a2 = msSample.ctx.a2 ∧ msSample'.ctx.a3 = msSample.ctx.a3 ∧
      msSample'.ctx.a4 = msSample.ctx.a4 ∧ msSample'.ctx.a5 = msSample.ctx.a5 ∧
      msSample'.ctx.a6 = msSample.ctx.a6 ∧ msSample'.ctx.a7 = msSample.ctx.a7 ∧
      msSample'.mipStimer = msSample.mipStimer ∧ msSample'.mieMtimer = msSample.mieMtimer) :=
  ⟨by decide, sbi_call_frame ecallSample msSample msSample' (by decide)⟩

/-- C9: a `Suspended(IllegalInstruction)` or `Suspended(MachineSoft)`
trap event makes the trap loop abort the hart (the `todo!()` arms panic,
and a panicked hart halts); neither event resumes supervisor execution
or continues the loop, since `Outcome.aborted` is distinct from every
`Outcome.resumed` and from `Outcome.finished`. -/
theorem unimplemented_trap_aborts (ecall : Nat → Nat → List Nat → SbiRet) (s : MachineState) :
    execute_supervisor_step ecall (.Yielded .IllegalInstruction) s = .aborted ∧
      execute_supervisor_step ecall (.Yielded .MachineSoft) s = .aborted :=
  ⟨rfl, rfl⟩

/-- Bits of a mask after setting bit `n`. -/
theorem testBit_setBit (x n i : Nat) :
    (setBit x n).testBit i = (x.testBit i || decide (i = n)) := by
  unfold setBit
  rw [Nat.testBit_or, Nat.testBit_two_pow]
  simp [eq_comm]

/-- C6: `delegate_interrupt_exception` sets exactly the delegation bits
for supervisor/user external (9, 8), timer (5, 4) and software (1, 0)
interrupts and for the instruction-address-misaligned (0), breakpoint
(3), user-environment-call (8), instruction/load/store page fault
(12, 13, 15) and instruction/load/store access fault (1, 5, 7)
exceptions; it leaves the supervisor-environment-call (medeleg bit 9),
machine-timer (mideleg bit 7) and machine-software (mideleg bit 3)
delegation bits unchanged (hence non-delegated from a reset state); it
enables the machine external (11) and machine software (3) interrupt
enables and leaves the machine timer enable (7) unchanged. -/
theorem delegate_bits (s : Csrs) (i : Nat) :
    ((delegate_interrupt_exception s).mideleg.testBit 9 = true ∧
      (delegate_interrupt_exception s).mideleg.testBit 5 = true ∧
      (delegate_interrupt_exception s).mideleg.testBit 1 = true ∧
      (delegate_interrupt_exception s).mideleg.testBit 8 = true ∧
      (delegate_interrupt_exception s).mideleg.testBit 4 = true ∧
      (delegate_interrupt_exception s).mideleg.testBit 0 = true) ∧
    ((delegate_interrupt_exception s).medeleg.testBit 0 = true ∧
      (delegate_interrupt_exception s).medeleg.testBit 3 = true ∧
      (delegate_interrupt_exception s).medeleg.testBit 8 = true ∧
      (delegate_interrupt_exception s).medeleg.testBit 12 = true ∧
      (delegate_interrupt_exception s).medeleg.testBit 13 = true ∧
      (delegate_interrupt_exception s).medeleg.testBit 15 = true ∧
      (delegate_interrupt_exception s).medeleg.testBit 1 = true ∧
      (delegate_interrupt_exception s).medeleg.testBit 5 = true ∧
      (delegate_interrupt_exception s).medeleg.testBit 7 = true) ∧
    ((delegate_interrupt_exception s).medeleg.testBit 9 = s.medeleg.testBit 9 ∧
      (delegate_interrupt_exception s).mideleg.testBit 7 = s.mideleg.testBit 7 ∧
      (delegate_interrupt_exception s).mideleg.testBit 3 = s.mideleg.testBit 3) ∧
    ((delegate_interrupt_exception s).mie.testBit 11 = true ∧
      (delegate_interrupt_exception s).mie.testBit 3 = true ∧
      (delegate_interrupt_exception s).mie.testBit 7 = s.mie.testBit 7) ∧
    (i ∉ [0, 1, 4, 5, 8, 9] →
      (delegate_interrupt_exception s).mideleg.testBit i = s.mideleg.testBit i) ∧
    (i ∉ [0, 1, 3, 5, 7, 8, 12, 13, 15] →
      (delegate_interrupt_exception s).medeleg.testBit i = s.medeleg.testBit i) ∧
    (i ∉ [3, 11] →
      (delegate_interrupt_exception s).mie.testBit i = s.mie.testBit i) := by
  refine ⟨?_, ?_, ?_, ?_, ?_, ?_, ?_⟩
  · simp only [delegate_interrupt_exception, testBit_setBit]; simp
  · simp only [delegate_interrupt_exception, testBit_setBit]; simp
  · simp only [delegate_interrupt_exception, testBit_setBit]; simp
  · simp only [delegate_interrupt_exception, testBit_setBit]; simp
  · intro hi
    simp only [List.mem_cons, List.not_mem_nil, not_or, or_false] at hi
    obtain ⟨h0, h1, h4, h5, h8, h9⟩ := hi
    simp [delegate_interrupt_exception, testBit_setBit, h0, h1, h4, h5, h8, h9]
  · intro hi
    simp only [List.mem_cons, List.not_mem_nil, not_or, or_false] at hi
    obtain ⟨h0, h1, h3, h5, h7, h8, h12, h13, h15⟩ := hi
    simp [delegate_interrupt_exception, testBit_setBit, h0, h1, h3, h5, h7, h8, h12, h13, h15]
  · intro hi
    simp only [List.mem_cons, List.not_mem_nil, not_or, or_false] at hi
    obtain ⟨h3, h11⟩ := hi
    simp [delegate_interrupt_exception, testBit_setBit, h3, h11]

/-- Witness for C6 at the reset CSR state and a bit outside the masks. -/
theorem delegate_bits_witness :
    (((delegate_interrupt_exception ⟨0, 0, 0⟩).mideleg.testBit 9 = true ∧
      (delegate_interrupt_exception ⟨0, 0, 0⟩).mideleg.testBit 5 = true ∧
      (delegate_interrupt_exception ⟨0, 0, 0⟩).mideleg.testBit 1 = true ∧
      (delegate_interrupt_exception ⟨0, 0, 0⟩).mideleg.testBit 8 = true ∧
      (delegate_interrupt_exception ⟨0, 0, 0⟩).mideleg.testBit 4 = true ∧
      (delegate_interrupt_exception ⟨0, 0, 0⟩).mideleg.testBit 0 = true) ∧
    ((delegate_interrupt_exception ⟨0, 0, 0⟩).medeleg.testBit 0 = true ∧
      (delegate_interrupt_exception ⟨0, 0, 0⟩).medeleg.testBit 3 = true ∧
      (delegate_interrupt_exception ⟨0, 0, 0⟩).medeleg.testBit 8 = true ∧
      (delegate_interrupt_exception ⟨0, 0, 0⟩).medeleg.testBit 12 = true ∧
      (delegate_interrupt_exception ⟨0, 0, 0⟩).medeleg.testBit 13 = true ∧
      (delegate_interrupt_exception ⟨0, 0, 0⟩).medeleg.testBit 15 = true ∧
      (delegate_interrupt_exception ⟨0, 0, 0⟩).medeleg.testBit 1 = true ∧
      (delegate_interrupt_exception ⟨0, 0, 0⟩).medeleg.testBit 5 = true ∧
      (delegate_interrupt_exception ⟨0, 0, 0⟩).medeleg.testBit 7 = true) ∧
    ((delegate_interrupt_exception ⟨0, 0, 0⟩).medeleg.testBit 9 =
        (⟨0, 0, 0⟩ : Csrs).medeleg.testBit 9 ∧
      (delegate_interrupt_exception ⟨0, 0, 0⟩).mideleg.testBit 7 =
        (⟨0, 0, 0⟩ : Csrs).mideleg.testBit 7 ∧
      (delegate_interrupt_exception ⟨0, 0, 0⟩).mideleg.testBit 3 =
        (⟨0, 0, 0⟩ : Csrs).mideleg.testBit 3) ∧
    ((delegate_interrupt_exception ⟨0, 0, 0⟩).mie.testBit 11 = true ∧
      (delegate_interrupt_exception ⟨0, 0, 0⟩).mie.testBit 3 = true ∧
      (delegate_interrupt_exception ⟨0, 0, 0⟩).mie.testBit 7 =
        (⟨0, 0, 0⟩ : Csrs).mie.testBit 7) ∧
    ((16 : Nat) ∉ [0, 1, 4, 5, 8, 9] →
      (delegate_interrupt_exception ⟨0, 0, 0⟩).mideleg.testBit 16 =
        (⟨0, 0, 0⟩ : Csrs).mideleg.testBit 16) ∧
    ((16 : Nat) ∉ [0, 1, 3, 5, 7, 8, 12, 13, 15] →
      (delegate_interrupt_exception ⟨0, 0, 0⟩).medeleg.testBit 16 =
        (⟨0, 0, 0⟩ : Csrs).medeleg.testBit 16) ∧
    ((16 : Nat) ∉ [3, 11] →
      (delegate_interrupt_exception ⟨0, 0, 0⟩).mie.testBit 16 =
        (⟨0, 0, 0⟩ : Csrs).mie.testBit 16)) :=
  delegate_bits ⟨0, 0, 0⟩ 16

/-- One `wfi` never touches the interrupt-enable bit. -/
theorem wfiStep_mieMsoft (a : Bool) (s : HartIntState) :
    (wfiStep a s).mieMsoft = s.mieMsoft := by
  cases a <;> simp [wfiStep]

/-- The wait loop of `pause` never touches the interrupt-enable bit. -/
theorem waitLoop_mieMsoft (env : Nat → Bool) :
    ∀ fuel k (s t : HartIntState), waitLoop env fuel k s = some t →
      t.mieMsoft = s.mieMsoft := by
  intro fuel
  induction fuel with
  | zero => intro k s t h; simp [waitLoop] at h
  | succ n ih =>
    intro k s t h
    simp only [waitLoop] at h
    split at h
    · injection h with h'
      subst h'
      exact wfiStep_mieMsoft (env k) s
    · exact (ih (k + 1) (wfiStep (env k) s) t h).trans (wfiStep_mieMsoft (env k) s)

/-- C7: whenever `pause` returns, the machine software-interrupt enable
bit equals its entry value (clear stays clear, set stays set) and the
calling hart's CLINT software-interrupt-pending slot is clear. -/
theorem pause_frame (env : Nat → Bool) (fuel : Nat) (s t : HartIntState)
    (h : pause env fuel s = some t) :
    t.mieMsoft = s.mieMsoft ∧ t.clintMsip = false := by
  unfold pause at h
  cases hw : waitLoop env fuel 0
      { s with clintMsip := false, mipMsoft := false, mieMsoft := true } with
  | none => simp [hw] at h
  | some s₄ =>
    have hmie : s₄.mieMsoft = true := waitLoop_mieMsoft env fuel 0 _ s₄ hw
    simp [hw] at h
    by_cases hp : s.mieMsoft <;> simp [hp] at h <;> subst h <;> simp [hmie, hp]

/-- Witness for C7: a hart entering `pause` with interrupts disabled and
an immediately arriving notification. -/
theorem pause_frame_witness :
    pause (fun _ => true) 1 ⟨false, false, false⟩ = some ⟨false, true, false⟩ ∧
    ((⟨false, true, false⟩ : HartIntState).mieMsoft =
        (⟨false, false, false⟩ : HartIntState).mieMsoft ∧
      (⟨false, true, false⟩ : HartIntState).clintMsip = false) :=
  ⟨rfl, pause_frame (fun _ => true) 1 ⟨false, false, false⟩ ⟨false, true, false⟩ rfl⟩

/-- The `entry` stack-pointer loop adds its step once per count. -/
theorem spLoop_eq : ∀ (n sp t0 : Nat), spLoop sp t0 n = sp + t0 * n := by
  intro n
  induction n with
  | zero => intro sp t0; simp [spLoop]
  | succ m ih =>
    intro sp t0
    rw [spLoop, ih]
    ring

/-- C5: `entry` assigns hart `h` the stack pointer
`stack_base + (h + 1) * per_hart_stack_size`; for distinct hart ids in
`0..=4` the assigned stack slices are disjoint, each of size exactly
`PER_HART_STACK_SIZE`, and each lies within the reserved `SBI_STACK`
region. -/
theorem stack_assignment (base h1 h2 : Nat) (hlt1 : h1 < 5) (hlt2 : h2 < 5)
    (hne : h1 ≠ h2) :
    entrySp base h1 = base + (h1 + 1) * PER_HART_STACK_SIZE ∧
      (stackSlice base h1).card = PER_HART_STACK_SIZE ∧
      (stackSlice base h2).card = PER_HART_STACK_SIZE ∧
      Disjoint (stackSlice base h1) (stackSlice base h2) ∧
      stackSlice base h1 ⊆ Finset.Ico base (base + SBI_STACK_SIZE) ∧
      stackSlice base h2 ⊆ Finset.Ico base (base + SBI_STACK_SIZE) := by
  refine ⟨?_, ?_, ?_, ?_, ?_, ?_⟩
  · rw [entrySp, spLoop_eq]
    ring
  · simp only [stackSlice, Nat.card_Ico, PER_HART_STACK_SIZE]
    omega
  · simp only [stackSlice, Nat.card_Ico, PER_HART_STACK_SIZE]
    omega
  · rw [Finset.disjoint_left]
    intro x hx hx'
    simp only [stackSlice, Finset.mem_Ico, PER_HART_STACK_SIZE] at hx hx'
    omega
  · intro x hx
    simp only [stackSlice, Finset.mem_Ico, PER_HART_STACK_SIZE] at hx
    simp only [Finset.mem_Ico, SBI_STACK_SIZE, PER_HART_STACK_SIZE]
    omega
  · intro x hx
    simp only [stackSlice, Finset.mem_Ico, PER_HART_STACK_SIZE] at hx
    simp only [Finset.mem_Ico, SBI_STACK_SIZE, PER_HART_STACK_SIZE]
    omega

/-- Witness for C5 at harts 0 and 1 with stack base 0x80020000. -/
theorem stack_assignment_witness :
    (0 : Nat) < 5 ∧ (1 : Nat) < 5 ∧ (0 : Nat) ≠ 1 ∧
    (entrySp 0x80020000 0 = 0x80020000 + (0 + 1) * PER_HART_STACK_SIZE ∧
      (stackSlice 0x80020000 0).card = PER_HART_STACK_SIZE ∧
      (stackSlice 0x80020000 1).card = PER_HART_STACK_SIZE ∧
      Disjoint (stackSlice 0x80020000 0) (stackSlice 0x80020000 1) ∧
      stackSlice 0x80020000 0 ⊆ Finset.Ico 0x80020000 (0x80020000 + SBI_STACK_SIZE) ∧
      stackSlice 0x80020000 1 ⊆ Finset.Ico 0x80020000 (0x80020000 + SBI_STACK_SIZE)) :=
  ⟨by decide, by decide, by decide,
    stack_assignment 0x80020000 0 1 (by decide) (by decide) (by decide)⟩

/-- Counting a `sendSoft` event in a mapped target list. -/
theorem count_sendSoft_map (p t q : Nat) (l : List Nat) :
    ((l.map (Event.sendSoft q)).count (Event.sendSoft p t)) =
      if p = q then l.count t else 0 := by
  induction l with
  | nil => by_cases hpq : p = q <;> simp [hpq]
  | cons a l ih =>
    by_cases hpq : p = q
    · subst hpq
      simp [List.count_cons, ih, beq_iff_eq]
    · simp [List.count_cons, ih, hpq, beq_iff_eq, Event.sendSoft.injEq]

/-- No `delegate` event occurs in a mapped target list. -/
theorem count_delegate_map (q : Nat) (l : List Nat) :
    (l.map (Event.sendSoft q)).count Event.delegate = 0 := by
  induction l with
  | nil => simp
  | cons a l ih => simp [List.count_cons, ih]

/-- Occurrences of a target in the follower list `[1, 2, 3, 4]`. -/
theorem count_targets (t : Nat) :
    List.count t [1, 2, 3, 4] = if t = 1 ∨ t = 2 ∨ t = 3 ∨ t = 4 then 1 else 0 := by
  simp only [List.count_cons, List.count_nil, beq_iff_eq]
  split_ifs <;> omega

/-- Counting through the `target_hart_id != boot_hart` filter. -/
theorem count_filter_ne (t b : Nat) (l : List Nat) :
    List.count t (l.filter (fun x => !decide (x = b))) =
      if t = b then 0 else List.count t l := by
  by_cases ht : t = b
  · subst ht
    simp [List.count_eq_zero, List.mem_filter]
  · rw [List.count_filter (by simp [ht])]
    simp [ht]

/-- C3 (amended): at each of the two notification points the boot hart
sends exactly one software interrupt to every hart with id in `1..=4`
other than itself — hart 0 is never a notification target — and no
other hart sends any notification. -/
theorem boot_notification_targets (dtAddr hartId opq : Nat) (info : FwDynamicInfo)
    (p t : Nat) :
    (rustMainTrace dtAddr hartId opq info).count (Event.sendSoft p t) =
      if hartId = info.boot_hart ∧ (p = 1 ∨ p = 2) ∧
          (1 ≤ t ∧ t ≤ 4 ∧ t ≠ info.boot_hart)
      then 1 else 0 := by
  simp only [rustMainTrace]
  by_cases hb : hartId = info.boot_hart
  · simp [hb, List.count_append, List.count_cons, count_sendSoft_map,
      count_filter_ne, count_targets]
    split_ifs <;> omega
  · simp [hb, List.count_append, List.count_cons]
    split <;> simp

/-- C3 counterexample: with boot hart 1, the boot hart's early
notification point sends nothing to hart 0, so the boot hart does not
notify every other hart. -/
theorem boot_notification_miss_hart0 :
    ¬ ((rustMainTrace 0x87000000 1 0x82200000
        ⟨0x4942534f, 2, 0x80200000, 1, 0, 1⟩).count (Event.sendSoft 1 0) = 1) := by
  decide

/-- C4 (amended): a hart runs the delegation configurator (exactly once,
before entering its trap loop) if and only if it is the boot hart or its
hart id is not 0: the boot hart delegates unconditionally, and a
follower hart delegates exactly when its id is not 0. -/
theorem delegation_count (dtAddr hartId opq : Nat) (info : FwDynamicInfo) :
    (rustMainTrace dtAddr hartId opq info).count Event.delegate =
      if hartId = info.boot_hart ∨ hartId ≠ 0 then 1 else 0 := by
  simp only [rustMainTrace]
  by_cases hb : hartId = info.boot_hart
  · simp [hb, List.count_append, List.count_cons, count_delegate_map]
  · simp [hb, List.count_append, List.count_cons]
    by_cases h0 : hartId = 0 <;> simp [h0]

/-- C4 counterexample: when hart 0 is the boot hart it does run the
delegation configurator, refuting "hart 0 never delegates". -/
theorem delegation_on_hart0 :
    ¬ ((rustMainTrace 0x87000000 0 0x82200000
        ⟨0x4942534f, 2, 0x80200000, 1, 0, 0⟩).count Event.delegate = 0) := by
  decide

/-- C8: every hart's final action is entering the trap loop with initial
supervisor program counter `next_addr` and, as opaque value, the
loader-supplied value when it is non-zero and the embedded fallback
device-tree address exactly when it is zero. -/
theorem enter_supervisor_event (dtAddr hartId opq : Nat) (info : FwDynamicInfo) :
    (rustMainTrace dtAddr hartId opq info).getLast? =
      some (Event.enterSupervisor info.next_addr hartId
        (if opq = 0 then dtAddr else opq)) := by
  simp only [rustMainTrace]
  exact List.getLast?_concat _

/-- Erase the payload of the one console event that prints the raw boot
descriptor; all other events, including `enterSupervisor`, keep their
payloads. -/
def scrubLog : Event → Event
  | .printEnter o _ => .printEnter o ⟨0, 0, 0, 0, 0, 0⟩
  | e => e

/-- C10: two boot descriptors agreeing on `boot_hart` and `next_addr`
but differing arbitrarily in `magic`, `version`, `next_mode` and
`options` produce, on every hart, identical traces up to the payload of
the descriptor-echoing console print; in particular all control-flow
decisions, every notification, and the final `enterSupervisor` program
counter and opaque value coincide, and `magic` is never compared against
`FW_DYNAMIC_INFO_MAGIC_VALUE`. -/
theorem descriptor_noninterference (dtAddr hartId opq : Nat) (i1 i2 : FwDynamicInfo)
    (hna : i1.next_addr = i2.next_addr) (hb : i1.boot_hart = i2.boot_hart) :
    (rustMainTrace dtAddr hartId opq i1).map scrubLog =
      (rustMainTrace dtAddr hartId opq i2).map scrubLog := by
  simp only [rustMainTrace, hna, hb]
  by_cases hbb : hartId = i2.boot_hart <;> by_cases ho : opq = 0 <;>
    simp [hbb, ho, scrubLog, List.map_append, List.map_map, Function.comp]

/-- Witness for C10: two descriptors differing in magic, version,
next_mode and options (one with the protocol magic, one without). -/
theorem descriptor_noninterference_witness :
    (⟨0xdead, 7, 0x80200000, 0, 5, 0⟩ : FwDynamicInfo).next_addr =
        (⟨0x4942534f, 2, 0x80200000, 1, 0, 0⟩ : FwDynamicInfo).next_addr ∧
    (⟨0xdead, 7, 0x80200000, 0, 5, 0⟩ : FwDynamicInfo).boot_hart =
        (⟨0x4942534f, 2, 0x80200000, 1, 0, 0⟩ : FwDynamicInfo).boot_hart ∧
    (rustMainTrace 0x87000000 0 0x82200000 ⟨0xdead, 7, 0x80200000, 0, 5, 0⟩).map scrubLog =
      (rustMainTrace 0x87000000 0 0x82200000 ⟨0x4942534f, 2, 0x80200000, 1, 0, 0⟩).map
        scrubLog :=
  ⟨rfl, rfl, descriptor_noninterference 0x87000000 0 0x82200000
    ⟨0xdead, 7, 0x80200000, 0, 5, 0⟩ ⟨0x4942534f, 2, 0x80200000, 1, 0, 0⟩ rfl rfl⟩

end RustSBI
